import Mathlib

/-!
Verification development for the `file-vault` repository (FastAPI gateway
over Supabase storage, `src/api.py`).  The endpoints are embedded as pure
Lean functions; the external storage service appears either as an explicit
outcome argument (`Except String _` for the result of a storage call) or,
for the round-trip property, as a key-to-bytes association list.
-/

set_option autoImplicit false

/-! ## Character-level string helpers (Python `in`, `os.path.basename`, extensions) -/

/-- Checks whether the first list is a leading segment of the second. -/
def startsWithChars : List Char → List Char → Bool
  | [], _ => true
  | _ :: _, [] => false
  | a :: as, b :: bs => a == b && startsWithChars as bs

/-- Checks whether `sub` occurs contiguously inside the second list. -/
def containsChars (sub : List Char) : List Char → Bool
  | [] => sub.isEmpty
  | c :: cs => startsWithChars sub (c :: cs) || containsChars sub cs

/-- Python `sub in s` on strings: case-sensitive substring containment. -/
def containsSub (s sub : String) : Bool :=
  containsChars sub.data s.data

/-- Helper for `os.path.basename`: keeps the characters seen since the last
separator; `acc` holds the current segment reversed. -/
def basenameList : List Char → List Char → List Char
  | acc, [] => acc.reverse
  | acc, c :: rest => if c = '/' then basenameList [] rest else basenameList (c :: acc) rest

/-- Python `os.path.basename`: the part of the path after the last slash. -/
def basename (p : String) : String :=
  String.mk (basenameList [] p.data)

/-- Splits a reversed character list at the first dot, if any:
returns (characters before the dot, characters after it). -/
def takeUntilDot : List Char → Option (List Char × List Char)
  | [] => none
  | c :: rest =>
    if c = '.' then some ([], rest)
    else
      match takeUntilDot rest with
      | none => none
      | some (a, b) => some (c :: a, b)

/-- Python `os.path.splitext` extension rule on a basename: the extension is
the part after the last dot, except that a name consisting of leading dots
only (such as `.bashrc`) has no extension. -/
def fileExtList (base : List Char) : Option (List Char) :=
  match takeUntilDot base.reverse with
  | none => none
  | some (extRev, beforeRev) =>
    if beforeRev.any (fun c => c != '.') then some extRev.reverse else none

/-- Association-list lookup, first match wins (Python `dict.get`). -/
def dictGet : List (String × String) → String → Option String
  | [], _ => none
  | (k, v) :: rest, key => if k = key then some v else dictGet rest key

/-- Modelled from the Python stdlib collaborator `mimetypes`: a representative
subset of its extension-to-media-type table (lower-case keys, as the stdlib
lowercases the extension before lookup). -/
def mimeTable : List (String × String) :=
  [("txt", "text/plain"), ("pdf", "application/pdf"), ("png", "image/png"),
   ("jpg", "image/jpeg"), ("jpeg", "image/jpeg"), ("gif", "image/gif"),
   ("html", "text/html"), ("htm", "text/html"), ("json", "application/json"),
   ("csv", "text/csv"), ("mp4", "video/mp4"), ("zip", "application/zip")]

/-- Modelled from the Python stdlib collaborator `mimetypes.guess_type`:
take the extension of the path basename, lowercase it, and look it up in
the type table; `none` when the extension is absent or unrecognized. -/
def mimetypes_guess_type (path : String) : Option String :=
  match fileExtList (basenameList [] path.data) with
  | none => none
  | some ext => dictGet mimeTable (String.mk (ext.map Char.toLower))

/-! ## Python truthiness (`a or b`) -/

/-- Python `a or b` where `a` is an optional string and the result stays
optional: `None` and the empty string are falsy. -/
def pyOrOpt (a b : Option String) : Option String :=
  match a with
  | some s => if s = "" then b else some s
  | none => b

/-- Python `a or b` where the fallback is a plain string. -/
def pyOrStr (a : Option String) (b : String) : String :=
  match a with
  | some s => if s = "" then b else s
  | none => b

/-- Tests whether an optional string is falsy in Python (absent or empty). -/
def falsyOpt : Option String → Bool
  | none => true
  | some s => s == ""

/-! ## Configuration and credential tiers (api.py lines 11-24) -/

/-- Process environment relevant to credential selection: whether
`SUPABASE_SERVICE_KEY` was supplied (so `admin_client` exists). -/
structure Env where
  hasServiceKey : Bool
deriving DecidableEq

/-- The two credential tiers of api.py: the anon `supabase` client
(standard) and the service-role `admin_client` (elevated). -/
inductive Cred where
  | standard
  | elevated
deriving DecidableEq, BEq

/-- Python `admin_client or supabase`: the elevated client when configured,
else the standard one. -/
def adminOr (env : Env) : Cred :=
  if env.hasServiceKey then Cred.elevated else Cred.standard

/-- Client used for the storage write in `upload` (api.py line 37). -/
def uploadClientCred (env : Env) : Cred := adminOr env

/-- Client used for `create_signed_url` inside `upload` (api.py lines 53 and 68). -/
def uploadSignCred (env : Env) : Cred := adminOr env

/-- Client used for `create_signed_url` in `preview` (api.py line 115). -/
def previewCred (env : Env) : Cred := adminOr env

/-- Client used for `create_signed_url` in `download_link` (api.py line 130). -/
def downloadLinkCred (env : Env) : Cred := adminOr env

/-- Client used for the byte download in `download` (api.py line 94):
always the plain `supabase` client. -/
def downloadCred (_env : Env) : Cred := Cred.standard

/-- Client used for the removal in `delete` (api.py line 144):
always the plain `supabase` client. -/
def deleteCred (_env : Env) : Cred := Cred.standard

/-- Signing TTL constant `EXPIRES_DEFAULT` (api.py line 24). -/
def EXPIRES_DEFAULT : Nat := 3600

/-- TTL passed to `create_signed_url` by `preview` (api.py line 116). -/
def previewTTL : Nat := EXPIRES_DEFAULT

/-- TTL passed to `create_signed_url` by `download_link` (api.py line 131). -/
def downloadLinkTTL : Nat := EXPIRES_DEFAULT

/-! ## Signed-URL results and their normalization (four code sites) -/

/-- Result shape of the external `create_signed_url` call: either a bare
string or a mapping of key names to strings. -/
inductive SignedResult where
  | str : String → SignedResult
  | dict : List (String × String) → SignedResult
deriving DecidableEq

/-- Normalization at the upload duplicate branch (api.py lines 56-59):
`signed.get("signedURL") or signed.get("signed_url") or
signed.get("publicURL") or signed.get("public_url")` on a mapping,
the value itself otherwise. -/
def dupSignedUrl : SignedResult → Option String
  | SignedResult.dict m =>
    pyOrOpt (dictGet m "signedURL") (pyOrOpt (dictGet m "signed_url")
      (pyOrOpt (dictGet m "publicURL") (dictGet m "public_url")))
  | SignedResult.str s => some s

/-- Normalization at the upload success path (api.py lines 71-74). -/
def uploadSignedUrl : SignedResult → Option String
  | SignedResult.dict m =>
    pyOrOpt (dictGet m "signedURL") (pyOrOpt (dictGet m "signed_url")
      (pyOrOpt (dictGet m "publicURL") (dictGet m "public_url")))
  | SignedResult.str s => some s

/-- Normalization inside `preview` (api.py lines 117-120). -/
def previewSignedUrl : SignedResult → Option String
  | SignedResult.dict m =>
    pyOrOpt (dictGet m "signedURL") (pyOrOpt (dictGet m "signed_url")
      (pyOrOpt (dictGet m "publicURL") (dictGet m "public_url")))
  | SignedResult.str s => some s

/-- Normalization inside `download_link` (api.py lines 132-135). -/
def downloadLinkSignedUrl : SignedResult → Option String
  | SignedResult.dict m =>
    pyOrOpt (dictGet m "signedURL") (pyOrOpt (dictGet m "signed_url")
      (pyOrOpt (dictGet m "publicURL") (dictGet m "public_url")))
  | SignedResult.str s => some s

/-! ## Upload endpoint (api.py lines 29-85) -/

/-- Error classification condition of api.py line 44. -/
def isPermissionError (msg : String) : Bool :=
  containsSub msg "row-level security" || containsSub msg "Unauthorized" || containsSub msg "403"

/-- Error classification condition of api.py line 52. -/
def isDuplicateError (msg : String) : Bool :=
  containsSub msg "Duplicate" || containsSub msg "already exists" || containsSub msg "409"

/-- Content-type determination of api.py line 35:
`file.content_type or mimetypes.guess_type(remote)[0] or
"application/octet-stream"` with Python truthiness. -/
def uploadContentType (declared : Option String) (remote : String) : String :=
  pyOrStr declared (pyOrStr (mimetypes_guess_type remote) "application/octet-stream")

/-- Evaluation of `str(request.base_url)` at api.py line 79.  The handler
signature at line 30 declares only `file`, so the name `request` is unbound
in the function scope and the lookup raises `NameError` on every call; the
incoming request base URL (the argument here) is never readable. -/
def requestBaseUrlExpr (_reqBase : String) : Except String String :=
  Except.error "NameError: name request is not defined"

/-- The `try/except` of api.py lines 78-81 around `str(request.base_url)`:
any exception is caught and the base falls back to the literal `/`. -/
def uploadBaseUrl (reqBase : String) : String :=
  match requestBaseUrlExpr reqBase with
  | Except.ok b => b
  | Except.error _ => "/"

/-- Responses the `upload` handler can produce (api.py lines 41-85):
the 200 success body, the 200 duplicate body, the structured 403, and the
500 with raw detail. -/
inductive UploadResp where
  | uploaded (path : String) (previewUrl : Option String) (downloadUrl : String)
  | alreadyExists (previewUrl : Option String)
  | err403 (errorKind msg action : String)
  | err500 (detail : String)
deriving DecidableEq

/-- HTTP status of each upload response. -/
def UploadResp.status : UploadResp → Nat
  | UploadResp.uploaded _ _ _ => 200
  | UploadResp.alreadyExists _ => 200
  | UploadResp.err403 _ _ _ => 403
  | UploadResp.err500 _ => 500

/-- The `download_url` field of a successful upload body, when present. -/
def UploadResp.downloadUrlField : UploadResp → Option String
  | UploadResp.uploaded _ _ u => some u
  | _ => none

/-- The `upload` handler (api.py lines 29-85).  `storageResult` is the
outcome of the external storage write of `contents` under key `filename`
(line 40) and `signResult` the outcome of the `create_signed_url` call;
`reqBase` is the base URL of the incoming request (never readable, see
`requestBaseUrlExpr`). -/
def upload (env : Env) (reqBase : String) (filename : String) (contents : List Nat)
    (declaredContentType : Option String) (storageResult : Except String Unit)
    (signResult : Except String SignedResult) : UploadResp :=
  let remote := filename
  let ct := uploadContentType declaredContentType remote
  let client := uploadClientCred env
  match storageResult with
  | Except.error msg =>
    if isPermissionError msg then
      UploadResp.err403 "upload_failed"
        "Upload blocked by Supabase storage policy (403)."
        "Provide SUPABASE_SERVICE_KEY (service_role) to the server or configure the bucket to allow public uploads."
    else if isDuplicateError msg then
      UploadResp.alreadyExists
        (match signResult with
         | Except.ok signed => dupSignedUrl signed
         | Except.error _ => none)
    else
      UploadResp.err500 msg
  | Except.ok _ =>
    let previewUrl :=
      match signResult with
      | Except.ok signed => uploadSignedUrl signed
      | Except.error _ => none
    let base := uploadBaseUrl reqBase
    UploadResp.uploaded remote previewUrl (base ++ ("download?path=" ++ remote))

/-! ## Storage state, round trip, download endpoint -/

/-- Modelled external storage bucket: a key-to-bytes association list
(claim-level model of the Supabase bucket `files`). -/
def Store := List (String × List Nat)

/-- Lookup of a key in the bucket. -/
def storeLookup : Store → String → Option (List Nat)
  | [], _ => none
  | (k, v) :: rest, key => if k = key then some v else storeLookup rest key

/-- Modelled external collaborator `storage.upload`: rejects a write to an
existing key with a duplicate-resource error message, otherwise records
the bytes under the key. -/
def storeUpload (st : Store) (key : String) (b : List Nat) : Except String Store :=
  match storeLookup st key with
  | some _ => Except.error "Duplicate: The resource already exists"
  | none => Except.ok ((key, b) :: st)

/-- Modelled external collaborator `storage.download`: the stored bytes, or
an error when the key is absent. -/
def storeDownload (st : Store) (key : String) : Except String (List Nat) :=
  match storeLookup st key with
  | some b => Except.ok b
  | none => Except.error "Object not found"

/-- The `upload` handler run against the bucket model: performs the storage
write and threads its outcome into `upload`, returning the response and the
new bucket state. -/
def uploadEndpoint (env : Env) (reqBase : String) (st : Store) (filename : String)
    (contents : List Nat) (declaredContentType : Option String)
    (signResult : Except String SignedResult) : UploadResp × Store :=
  match storeUpload st filename contents with
  | Except.ok st2 =>
    (upload env reqBase filename contents declaredContentType (Except.ok ()) signResult, st2)
  | Except.error msg =>
    (upload env reqBase filename contents declaredContentType (Except.error msg) signResult, st)

/-- Media type of the `download` response (api.py lines 97-98):
`mimetypes.guess_type(path)[0] or "application/octet-stream"`. -/
def downloadMediaType (path : String) : String :=
  pyOrStr (mimetypes_guess_type path) "application/octet-stream"

/-- The `Content-Disposition` header value of api.py lines 101 and 105. -/
def dispositionHeader (path : String) : String :=
  "attachment; filename=\"" ++ basename path ++ "\""

/-- Responses of the `download` handler (api.py lines 91-108): a streamed
body with media type and content-disposition header, or a 500. -/
inductive DownloadResp where
  | stream (body : List Nat) (mediaType : String) (contentDisposition : String)
  | err500 (detail : String)
deriving DecidableEq

/-- The `download` handler (api.py lines 91-108) over the bucket model. -/
def download (st : Store) (path : String) : DownloadResp :=
  match storeDownload st path with
  | Except.ok data => DownloadResp.stream data (downloadMediaType path) (dispositionHeader path)
  | Except.error e => DownloadResp.err500 e

/-! ## Preview and download_link endpoints (api.py lines 111-138) -/

/-- Responses of `preview` and `download_link`: a JSON body with one
named URL field, or a 500 with raw detail. -/
inductive LinkResp where
  | ok (fieldName : String) (url : Option String)
  | err500 (detail : String)
deriving DecidableEq

/-- The URL value carried by a link response, when it is a success. -/
def LinkResp.urlValue : LinkResp → Option (Option String)
  | LinkResp.ok _ u => some u
  | LinkResp.err500 _ => none

/-- The error detail of a link response, when it is a failure. -/
def LinkResp.errDetail : LinkResp → Option String
  | LinkResp.ok _ _ => none
  | LinkResp.err500 d => some d

/-- The JSON field name of a link response, when it is a success. -/
def LinkResp.fieldLabel : LinkResp → Option String
  | LinkResp.ok n _ => some n
  | LinkResp.err500 _ => none

/-- The `preview` handler (api.py lines 111-123); `signResult` is the
outcome of `create_signed_url(path, EXPIRES_DEFAULT)` made with
`previewCred env`. -/
def preview (_env : Env) (_path : String) (signResult : Except String SignedResult) : LinkResp :=
  match signResult with
  | Except.ok signed => LinkResp.ok "preview_url" (previewSignedUrl signed)
  | Except.error e => LinkResp.err500 e

/-- The `download_link` handler (api.py lines 126-138); `signResult` is the
outcome of `create_signed_url(path, EXPIRES_DEFAULT)` made with
`downloadLinkCred env`. -/
def download_link (_env : Env) (_path : String) (signResult : Except String SignedResult) : LinkResp :=
  match signResult with
  | Except.ok signed => LinkResp.ok "download_url" (downloadLinkSignedUrl signed)
  | Except.error e => LinkResp.err500 e

/-! ## Helper lemmas -/

theorem basenameList_append (acc xs ys : List Char) :
    basenameList acc (xs ++ '/' :: ys) = basenameList [] ys := by
  induction xs generalizing acc with
  | nil => simp [basenameList]
  | cons c rest ih =>
    by_cases hc : c = '/' <;> simp [basenameList, hc, ih]

theorem basename_append_sep (x name : String) :
    basename (x ++ "/" ++ name) = basename name := by
  have hdata : (x ++ "/" ++ name).data = x.data ++ '/' :: name.data := by
    simp [String.data_append]
  simp [basename, hdata, basenameList_append]

/-! ## Claims -/

/-- C1: when the storage write in `upload` raises, the error message is
classified by case-sensitive substring matching, permission patterns first
("row-level security" / "Unauthorized" / "403" gives the structured 403),
then duplicate patterns ("Duplicate" / "already exists" / "409" gives a 200
body with message `already_exists` and the signed preview URL of the
existing object), and anything else a 500 carrying the raw message; no
upload response ever has status 409. -/
theorem upload_error_classification (env : Env) (reqBase f : String) (c : List Nat)
    (ct : Option String) (msg : String) (sr : Except String SignedResult)
    (ur : Except String Unit) :
    upload env reqBase f c ct (Except.error msg) sr =
      (if isPermissionError msg then
        UploadResp.err403 "upload_failed"
          "Upload blocked by Supabase storage policy (403)."
          "Provide SUPABASE_SERVICE_KEY (service_role) to the server or configure the bucket to allow public uploads."
      else if isDuplicateError msg then
        UploadResp.alreadyExists
          (match sr with
           | Except.ok signed => dupSignedUrl signed
           | Except.error _ => none)
      else UploadResp.err500 msg)
    ∧ (upload env reqBase f c ct (Except.error msg) sr).status =
        (if isPermissionError msg then 403 else if isDuplicateError msg then 200 else 500)
    ∧ ((upload env reqBase f c ct ur sr).status == 409) = false := by
  refine ⟨rfl, ?_, ?_⟩
  · cases hp : isPermissionError msg <;> cases hd : isDuplicateError msg <;>
      simp [upload, UploadResp.status, hp, hd]
  · cases ur with
    | ok u => rfl
    | error m2 =>
      simp only [upload]
      split
      · rfl
      · split <;> rfl

/-- C2 counterexample: with the elevated credential configured, the
mutating `delete` endpoint still performs its removal with the standard
credential, so the elevated credential is not used for every mutating call. -/
theorem delete_cred_not_elevated :
    deleteCred ⟨true⟩ = Cred.standard ∧ ((deleteCred ⟨true⟩) == Cred.elevated) = false := by
  exact ⟨rfl, rfl⟩

/-- C2 amended: when the elevated credential is configured it is used for
the upload write and for every `create_signed_url` call, while the plain
byte-download and the delete removal always use the standard credential. -/
theorem credential_tier_selection (env : Env) (h : env.hasServiceKey = true) :
    uploadClientCred env = Cred.elevated
    ∧ uploadSignCred env = Cred.elevated
    ∧ previewCred env = Cred.elevated
    ∧ downloadLinkCred env = Cred.elevated
    ∧ downloadCred env = Cred.standard
    ∧ deleteCred env = Cred.standard := by
  simp [uploadClientCred, uploadSignCred, previewCred, downloadLinkCred,
    downloadCred, deleteCred, adminOr, h]

/-- Witness for C2 amended at the concrete environment with the service key set. -/
theorem credential_tier_selection_witness :
    (Env.mk true).hasServiceKey = true
    ∧ (uploadClientCred ⟨true⟩ = Cred.elevated
       ∧ uploadSignCred ⟨true⟩ = Cred.elevated
       ∧ previewCred ⟨true⟩ = Cred.elevated
       ∧ downloadLinkCred ⟨true⟩ = Cred.elevated
       ∧ downloadCred ⟨true⟩ = Cred.standard
       ∧ deleteCred ⟨true⟩ = Cred.standard) :=
  ⟨rfl, credential_tier_selection ⟨true⟩ rfl⟩

/-- C3: evaluation at the failing input.  On a request whose base URL is
`http://testserver/`, a successful upload of `report.pdf` still answers
with `download_url` equal to `/download?path=report.pdf`, not
`http://testserver/download?path=report.pdf`: the handler never reads the
request context (see `requestBaseUrlExpr`). -/
theorem download_url_at_failing_input :
    (upload ⟨true⟩ "http://testserver/" "report.pdf" [37] none
        (Except.ok ()) (Except.error "sign failed")).downloadUrlField
      = some "/download?path=report.pdf" := rfl

/-- C10: the `download_url` of every successful upload is exactly the
constant string `/download?path=` followed by the filename, independent of
the incoming request: evaluating `request.base_url` raises `NameError`
(no `request` binding exists in the handler), which is caught and forces
the base to `/` on every call. -/
theorem download_url_constant (env : Env) (reqBase f : String) (c : List Nat)
    (ct : Option String) (sr : Except String SignedResult) (u : Unit) :
    requestBaseUrlExpr reqBase = Except.error "NameError: name request is not defined"
    ∧ uploadBaseUrl reqBase = "/"
    ∧ (upload env reqBase f c ct (Except.ok u) sr).downloadUrlField
        = some ("/download?path=" ++ f) := by
  exact ⟨rfl, rfl, rfl⟩

/-- C4: round trip.  Starting from a bucket without the key, uploading
bytes `b` under filename `f` and then downloading `f` streams exactly `b`
(the storage service modelled as a key-to-bytes map written by upload and
read by download). -/
theorem upload_download_roundtrip (env : Env) (reqBase : String) (st : Store)
    (f : String) (b : List Nat) (ct : Option String)
    (sr : Except String SignedResult) (h : storeLookup st f = none) :
    download (uploadEndpoint env reqBase st f b ct sr).2 f
      = DownloadResp.stream b (downloadMediaType f) (dispositionHeader f) := by
  have hup : storeUpload st f b = Except.ok ((f, b) :: st) := by
    simp [storeUpload, h]
  simp [uploadEndpoint, hup, download, storeDownload, storeLookup]

/-- Witness for C4 on the empty bucket with filename `a.txt`. -/
theorem upload_download_roundtrip_witness :
    storeLookup [] "a.txt" = none
    ∧ download (uploadEndpoint ⟨false⟩ "/" [] "a.txt" [104, 105] none
          (Except.error "e")).2 "a.txt"
        = DownloadResp.stream [104, 105] (downloadMediaType "a.txt") (dispositionHeader "a.txt") :=
  ⟨rfl, upload_download_roundtrip ⟨false⟩ "/" [] "a.txt" [104, 105] none (Except.error "e") rfl⟩

/-- C5: a failing `create_signed_url` never aborts the upload: after a
successful storage write the response is still the `uploaded` success body
with `preview_url` degraded to null, and on the duplicate branch it is
still the `already_exists` body with `preview_url` null. -/
theorem signing_failure_soft_fail (env : Env) (reqBase f : String) (c : List Nat)
    (ct : Option String) (s msg : String)
    (hd : isDuplicateError msg = true) (hp : isPermissionError msg = false) :
    upload env reqBase f c ct (Except.ok ()) (Except.error s)
      = UploadResp.uploaded f none ("/download?path=" ++ f)
    ∧ upload env reqBase f c ct (Except.error msg) (Except.error s)
      = UploadResp.alreadyExists none := by
  refine ⟨rfl, ?_⟩
  simp [upload, hp, hd]

/-- Witness for C5 at the duplicate message `Duplicate` and a concrete
signing failure. -/
theorem signing_failure_soft_fail_witness :
    isDuplicateError "Duplicate" = true
    ∧ isPermissionError "Duplicate" = false
    ∧ (upload ⟨false⟩ "/" "a.txt" [1] none (Except.ok ()) (Except.error "boom")
         = UploadResp.uploaded "a.txt" none "/download?path=a.txt"
       ∧ upload ⟨false⟩ "/" "a.txt" [1] none (Except.error "Duplicate") (Except.error "boom")
         = UploadResp.alreadyExists none) :=
  ⟨by decide, by decide,
   signing_failure_soft_fail ⟨false⟩ "/" "a.txt" [1] none "boom" "Duplicate"
     (by decide) (by decide)⟩

/-- C6: every successful download carries a `Content-Disposition` header of
the form `attachment; filename="<basename of path>"`, where basename strips
any directory-like prefix (`docs/report.pdf` yields `report.pdf`). -/
theorem download_disposition_basename (st : Store) (path x name : String)
    (data : List Nat) (h : storeDownload st path = Except.ok data) :
    download st path
      = DownloadResp.stream data (downloadMediaType path)
          ("attachment; filename=\"" ++ basename path ++ "\"")
    ∧ basename (x ++ "/" ++ name) = basename name
    ∧ basename "docs/report.pdf" = "report.pdf" := by
  refine ⟨?_, basename_append_sep x name, by decide⟩
  simp [download, h, dispositionHeader]

/-- Witness for C6 on a one-object bucket at path `docs/report.pdf`. -/
theorem download_disposition_basename_witness :
    storeDownload [("docs/report.pdf", [9])] "docs/report.pdf" = Except.ok [9]
    ∧ (download [("docs/report.pdf", [9])] "docs/report.pdf"
         = DownloadResp.stream [9] (downloadMediaType "docs/report.pdf")
             ("attachment; filename=\"" ++ basename "docs/report.pdf" ++ "\"")
       ∧ basename ("docs" ++ "/" ++ "report.pdf") = basename "report.pdf"
       ∧ basename "docs/report.pdf" = "report.pdf") :=
  ⟨rfl,
   download_disposition_basename [("docs/report.pdf", [9])] "docs/report.pdf"
     "docs" "report.pdf" [9] rfl⟩

/-- C7: `preview` and `download_link` make the identical signing call (same
credential choice, same TTL) and apply the same result normalization, so
for the same path and the same signing outcome they return the same URL
value and the same error detail, differing only in the JSON field name
(`preview_url` versus `download_url`). -/
theorem preview_download_link_agree (env : Env) (p : String)
    (sr : Except String SignedResult) (r : SignedResult) :
    previewCred env = downloadLinkCred env
    ∧ previewTTL = downloadLinkTTL
    ∧ (preview env p sr).urlValue = (download_link env p sr).urlValue
    ∧ (preview env p sr).errDetail = (download_link env p sr).errDetail
    ∧ (preview env p (Except.ok r)).fieldLabel = some "preview_url"
    ∧ (download_link env p (Except.ok r)).fieldLabel = some "download_url" := by
  refine ⟨rfl, rfl, ?_, ?_, rfl, rfl⟩ <;>
    cases sr <;>
      simp [preview, download_link, LinkResp.urlValue, LinkResp.errDetail,
        previewSignedUrl, downloadLinkSignedUrl]

/-- C8: the upload content type is the caller-declared type when truthy,
else the type guessed from the filename extension, else
`application/octet-stream`; the download media type is likewise guessed
from the path extension with the same generic-binary fallback. -/
theorem content_type_determination (d remote path t : String) :
    (d ≠ "" → uploadContentType (some d) remote = d)
    ∧ (mimetypes_guess_type remote = some t → t ≠ "" →
        uploadContentType none remote = t)
    ∧ (mimetypes_guess_type remote = none →
        uploadContentType none remote = "application/octet-stream")
    ∧ (mimetypes_guess_type path = none →
        downloadMediaType path = "application/octet-stream")
    ∧ downloadMediaType "blob.unknownext" = "application/octet-stream" := by
  refine ⟨?_, ?_, ?_, ?_, by decide⟩
  · intro hd; simp [uploadContentType, pyOrStr, hd]
  · intro hg ht; simp [uploadContentType, pyOrStr, hg, ht]
  · intro hg; simp [uploadContentType, pyOrStr, hg]
  · intro hg; simp [downloadMediaType, pyOrStr, hg]

/-- Witness for C8 at concrete declared types and filenames. -/
theorem content_type_determination_witness :
    uploadContentType (some "text/csv") "a.pdf" = "text/csv"
    ∧ uploadContentType none "a.pdf" = "application/pdf"
    ∧ uploadContentType none "blob.unknownext" = "application/octet-stream"
    ∧ downloadMediaType "blob.unknownext" = "application/octet-stream" :=
  ⟨(content_type_determination "text/csv" "a.pdf" "p" "x").1 (by decide),
   (content_type_determination "t" "a.pdf" "p" "application/pdf").2.1 (by decide) (by decide),
   (content_type_determination "t" "blob.unknownext" "p" "x").2.2.1 (by decide),
   (content_type_determination "t" "r" "blob.unknownext" "x").2.2.2.1 (by decide)⟩

/-- C9: all four signing sites (upload success path, duplicate branch,
preview, download_link) apply the same normalization to a signed-URL
result: a non-mapping result is used directly; on a mapping the keys
`signedURL`, `signed_url`, `publicURL`, `public_url` are tried in that
fixed priority order, the first non-empty value wins, and the result is
null when none of the keys is present. -/
theorem signed_url_normalization (m : List (String × String)) (s v : String)
    (r : SignedResult) :
    (uploadSignedUrl r = dupSignedUrl r
     ∧ uploadSignedUrl r = previewSignedUrl r
     ∧ uploadSignedUrl r = downloadLinkSignedUrl r)
    ∧ uploadSignedUrl (SignedResult.str s) = some s
    ∧ (dictGet m "signedURL" = some v → v ≠ "" →
        uploadSignedUrl (SignedResult.dict m) = some v)
    ∧ (falsyOpt (dictGet m "signedURL") = true →
        dictGet m "signed_url" = some v → v ≠ "" →
        uploadSignedUrl (SignedResult.dict m) = some v)
    ∧ (falsyOpt (dictGet m "signedURL") = true →
        falsyOpt (dictGet m "signed_url") = true →
        dictGet m "publicURL" = some v → v ≠ "" →
        uploadSignedUrl (SignedResult.dict m) = some v)
    ∧ (falsyOpt (dictGet m "signedURL") = true →
        falsyOpt (dictGet m "signed_url") = true →
        falsyOpt (dictGet m "publicURL") = true →
        dictGet m "public_url" = some v → v ≠ "" →
        uploadSignedUrl (SignedResult.dict m) = some v)
    ∧ (dictGet m "signedURL" = none → dictGet m "signed_url" = none →
        dictGet m "publicURL" = none → dictGet m "public_url" = none →
        uploadSignedUrl (SignedResult.dict m) = none) := by
  have hfalsy : ∀ (o : Option String) (b : Option String),
      falsyOpt o = true → pyOrOpt o b = b := by
    intro o b ho
    cases o with
    | none => rfl
    | some s0 =>
      have : s0 = "" := by simpa [falsyOpt] using ho
      simp [pyOrOpt, this]
  refine ⟨⟨?_, ?_, ?_⟩, rfl, ?_, ?_, ?_, ?_, ?_⟩
  · cases r <;> rfl
  · cases r <;> rfl
  · cases r <;> rfl
  · intro h1 hv; simp [uploadSignedUrl, h1, pyOrOpt, hv]
  · intro h1 h2 hv
    simp only [uploadSignedUrl]
    rw [hfalsy _ _ h1]
    simp [h2, pyOrOpt, hv]
  · intro h1 h2 h3 hv
    simp only [uploadSignedUrl]
    rw [hfalsy _ _ h1, hfalsy _ _ h2]
    simp [h3, pyOrOpt, hv]
  · intro h1 h2 h3 h4 hv
    simp only [uploadSignedUrl]
    rw [hfalsy _ _ h1, hfalsy _ _ h2, hfalsy _ _ h3]
    simp [h4, pyOrOpt, hv]
  · intro h1 h2 h3 h4
    simp [uploadSignedUrl, h1, h2, h3, h4, pyOrOpt]

/-- Witness for C9 at concrete signed-URL results. -/
theorem signed_url_normalization_witness :
    uploadSignedUrl (SignedResult.str "u1") = some "u1"
    ∧ uploadSignedUrl (SignedResult.dict [("signedURL", "u2")]) = some "u2"
    ∧ uploadSignedUrl (SignedResult.dict [("signedURL", ""), ("signed_url", "u3")]) = some "u3"
    ∧ uploadSignedUrl (SignedResult.dict []) = none :=
  ⟨(signed_url_normalization [] "u1" "x" (SignedResult.str "u1")).2.1,
   (signed_url_normalization [("signedURL", "u2")] "s" "u2"
      (SignedResult.str "s")).2.2.1 (by decide) (by decide),
   (signed_url_normalization [("signedURL", ""), ("signed_url", "u3")] "s" "u3"
      (SignedResult.str "s")).2.2.2.1 (by decide) (by decide) (by decide),
   (signed_url_normalization [] "s" "x" (SignedResult.str "s")).2.2.2.2.2.2
     (by decide) (by decide) (by decide) (by decide)⟩
